import Mathlib

/-!
Verification development for the deltachat core scheduler (`scheduler.rs`) and
the Secure-Join handshake state machine (`securejoin.rs`).

The Rust code is shallowly embedded: pure fragments become Lean functions, the
stateful handlers become explicit state-passing functions over a record
environment that stands for the parts of the context (database, token store,
peerstate store, message transport) that the spec declares out of scope.
Effects that the claims observe (messages sent, trust updates attempted,
failure notices, the ongoing-process flag) are collected in result records.
-/

namespace DeltaChat

/-! ## Constants

The numeric protocol tags live in `constants.rs`, which is not part of the
provided sources.  Modelled from the spec: `expects` holds "which handshake
step is awaited next" and is reset to `0` when nothing is awaited; `status`
is `pending/success/fail` with `DC_BOB_SUCCESS` the success tag.  The values
are opaque distinct tags. -/

def DC_CONTACT_ID_LAST_SPECIAL : Nat := 9

def DC_VC_AUTH_REQUIRED : Nat := 2

def DC_VC_CONTACT_CONFIRM : Nat := 6

def DC_BOB_SUCCESS : Nat := 1

/-! ## Scheduler (`scheduler.rs`)

The scheduler is `Stopped | Running {..}` where `Running` owns four
connection states and four optional task handles.  The connection and task
handles are opaque to the claims; we record only their presence. -/

/-- Presence of the four task handles of a `Running` scheduler
(`inbox_handle`, `mvbox_handle`, `sentbox_handle`, `smtp_handle`). -/
structure RunningConns where
  inboxHandle : Bool
  mvboxHandle : Bool
  sentboxHandle : Bool
  smtpHandle : Bool
deriving Repr, DecidableEq

/-- `enum Scheduler { Stopped, Running { .. } }`. -/
inductive SchedState where
  | Stopped : SchedState
  | Running : RunningConns → SchedState
deriving Repr, DecidableEq

/-- Observable outcome of one scheduler operation: the state afterwards,
whether the operation panicked, whether it blocked the caller on a channel,
and the `try_send` payloads delivered to idle-interrupt channels
(connection index 0-3, `probe_network` flag). -/
structure SchedOpResult where
  state : SchedState
  panics : Bool
  blocked : Bool
  sends : List (Nat × Bool)
deriving Repr, DecidableEq

/-- `Scheduler::start`: unconditionally overwrites `*self` with a fresh
`Running` state and spawns the four loops; the source contains no check of
the previous state and no panic (its doc comment notwithstanding).
`start` blocks waiting for the four started-signals, hence `blocked`. -/
def SchedState.start (_s : SchedState) : SchedOpResult :=
  { state := SchedState.Running ⟨true, true, true, true⟩
    panics := false
    blocked := true
    sends := [] }

/-- `Scheduler::interrupt_inbox`: `if let Scheduler::Running {..}` then
`try_send` on the inbox idle-interrupt channel, else nothing. -/
def SchedState.interrupt_inbox (s : SchedState) (probe_network : Bool) : SchedOpResult :=
  match s with
  | SchedState.Running _ => { state := s, panics := false, blocked := false, sends := [(0, probe_network)] }
  | SchedState.Stopped => { state := s, panics := false, blocked := false, sends := [] }

/-- `Scheduler::interrupt_mvbox`. -/
def SchedState.interrupt_mvbox (s : SchedState) (probe_network : Bool) : SchedOpResult :=
  match s with
  | SchedState.Running _ => { state := s, panics := false, blocked := false, sends := [(1, probe_network)] }
  | SchedState.Stopped => { state := s, panics := false, blocked := false, sends := [] }

/-- `Scheduler::interrupt_sentbox`. -/
def SchedState.interrupt_sentbox (s : SchedState) (probe_network : Bool) : SchedOpResult :=
  match s with
  | SchedState.Running _ => { state := s, panics := false, blocked := false, sends := [(2, probe_network)] }
  | SchedState.Stopped => { state := s, panics := false, blocked := false, sends := [] }

/-- `Scheduler::interrupt_smtp`. -/
def SchedState.interrupt_smtp (s : SchedState) (probe_network : Bool) : SchedOpResult :=
  match s with
  | SchedState.Running _ => { state := s, panics := false, blocked := false, sends := [(3, probe_network)] }
  | SchedState.Stopped => { state := s, panics := false, blocked := false, sends := [] }

/-- `Scheduler::is_running`. -/
def SchedState.is_running (s : SchedState) : Bool :=
  match s with
  | SchedState.Running _ => true
  | SchedState.Stopped => false

/-- `Scheduler::maybe_network`: returns early unless running, otherwise
interrupts all four connections with `probe_network = true`. -/
def SchedState.maybe_network (s : SchedState) : SchedOpResult :=
  if s.is_running then
    { state := s, panics := false, blocked := false
      sends := (s.interrupt_inbox true).sends ++ (s.interrupt_mvbox true).sends
        ++ (s.interrupt_sentbox true).sends ++ (s.interrupt_smtp true).sends }
  else
    { state := s, panics := false, blocked := false, sends := [] }

/-- `Scheduler::pre_stop`: panics when `Stopped`, otherwise blocks stopping
all four connections. -/
def SchedState.pre_stop (s : SchedState) : SchedOpResult :=
  match s with
  | SchedState.Stopped => { state := s, panics := true, blocked := false, sends := [] }
  | SchedState.Running _ => { state := s, panics := false, blocked := true, sends := [] }

/-- `Scheduler::stop`: panics when `Stopped`, otherwise joins the four task
handles and transitions to `Stopped`. -/
def SchedState.stop (s : SchedState) : SchedOpResult :=
  match s with
  | SchedState.Stopped => { state := s, panics := true, blocked := false, sends := [] }
  | SchedState.Running _ =>
    { state := SchedState.Stopped, panics := false, blocked := true, sends := [] }

/-- One call from the interrupt family exposed on `Context`. -/
inductive SchedCall where
  | inbox (probe_network : Bool)
  | mvbox (probe_network : Bool)
  | sentbox (probe_network : Bool)
  | smtp (probe_network : Bool)
  | maybeNet
deriving Repr, DecidableEq

/-- Dispatch one interrupt-family call. -/
def schedDispatch (s : SchedState) (c : SchedCall) : SchedOpResult :=
  match c with
  | SchedCall.inbox p => s.interrupt_inbox p
  | SchedCall.mvbox p => s.interrupt_mvbox p
  | SchedCall.sentbox p => s.interrupt_sentbox p
  | SchedCall.smtp p => s.interrupt_smtp p
  | SchedCall.maybeNet => s.maybe_network

/-- Run a sequence of interrupt-family calls, accumulating whether any call
panicked or blocked and all `try_send` payloads. -/
def schedRun (s : SchedState) : List SchedCall → SchedState × Bool × Bool × List (Nat × Bool)
  | [] => (s, false, false, [])
  | c :: cs =>
    let r := schedDispatch s c
    let rest := schedRun r.state cs
    (rest.1, r.panics || rest.2.1, r.blocked || rest.2.2.1, r.sends ++ rest.2.2.2)

/-! ## Primary inbox loop (`inbox_loop`)

One iteration of the loop body, lines 91-110 of `scheduler.rs`.  Inputs that
come from the environment: whether `job::load_next` returned `Some`, and the
boolean returned by `fetch_idle`.  The loop-local state is
`jobs_loaded` and `probe_network`. -/

/-- Loop-local state of `inbox_loop`. -/
structure InboxState where
  jobs_loaded : Nat
  probe_network : Bool
deriving Repr, DecidableEq

/-- What one iteration of the inbox loop did. -/
inductive InboxAction where
  /-- a ready job was executed (`perform_job`) -/
  | ranJob
  /-- a ready job was postponed and one fetch cycle ran instead -/
  | postponedFetch
  /-- no job was ready; a fetch-then-idle cycle ran -/
  | idled
deriving Repr, DecidableEq

/-- One iteration of the `inbox_loop` body:
`Some(job) if jobs_loaded <= 20` executes the job, increments the counter
and clears `probe_network`; `Some(job)` otherwise resets the counter and
performs one fetch; `None` resets the counter and performs fetch-then-idle,
whose result becomes the next `probe_network`. -/
def inbox_step (jobAvailable : Bool) (fetchIdleResult : Bool) (s : InboxState) :
    InboxState × InboxAction :=
  if jobAvailable then
    if s.jobs_loaded ≤ 20 then
      ({ jobs_loaded := s.jobs_loaded + 1, probe_network := false }, InboxAction.ranJob)
    else
      ({ jobs_loaded := 0, probe_network := s.probe_network }, InboxAction.postponedFetch)
  else
    ({ jobs_loaded := 0, probe_network := fetchIdleResult }, InboxAction.idled)

/-! ## Secure-Join data model (`securejoin.rs`, `mimeparser.rs`)

String helpers mirroring the Rust operations used by the handshake code:
`&step[..2]` and `step.starts_with("vg-")` (byte slicing; all step names are
ASCII so slicing by characters is identical). -/

/-- Rust `&s[..2]` on an ASCII string. -/
def strTake2 (s : String) : String := String.mk (s.data.take 2)

/-- Rust `s.starts_with(p)` on ASCII strings. -/
def strStartsWith (s p : String) : Bool := decide (s.data.take p.data.length = p.data)

/-- Rust `s.is_empty()`. -/
def strIsEmpty (s : String) : Bool := s.data.isEmpty

/-- Headers the handshake reads from a parsed MIME message
(subset of `HeaderDef` used by `securejoin.rs`). -/
inductive HeaderDef where
  | SecureJoin
  | SecureJoinInvitenumber
  | SecureJoinAuth
  | SecureJoinFingerprint
  | SecureJoinGroup
  | ChatGroupMemberAdded
deriving Repr, DecidableEq

/-- Parsed MIME message, restricted to the fields `securejoin.rs` reads:
the handshake headers and the set of fingerprints of valid signatures.
In `mimeparser.rs`, `was_encrypted()` is defined as
`!self.signatures.is_empty()`. -/
structure MimeMessage where
  secureJoin : Option String
  secureJoinInvitenumber : Option String
  secureJoinAuth : Option String
  secureJoinFingerprint : Option String
  secureJoinGroup : Option String
  chatGroupMemberAdded : Option String
  signatures : List String
deriving Repr, DecidableEq

/-- `MimeMessage::get`, dispatching on the header name. -/
def MimeMessage.get (m : MimeMessage) (h : HeaderDef) : Option String :=
  match h with
  | HeaderDef.SecureJoin => m.secureJoin
  | HeaderDef.SecureJoinInvitenumber => m.secureJoinInvitenumber
  | HeaderDef.SecureJoinAuth => m.secureJoinAuth
  | HeaderDef.SecureJoinFingerprint => m.secureJoinFingerprint
  | HeaderDef.SecureJoinGroup => m.secureJoinGroup
  | HeaderDef.ChatGroupMemberAdded => m.chatGroupMemberAdded

/-- `MimeMessage::was_encrypted`, from `mimeparser.rs`:
`!self.signatures.is_empty()`. -/
def MimeMessage.was_encrypted (m : MimeMessage) : Bool := !m.signatures.isEmpty

/-- `encrypted_and_signed` from `securejoin.rs`: the message must report
encryption, have a non-empty signature set, the expected fingerprint must be
non-empty, and the signature set must contain it. -/
def encrypted_and_signed (m : MimeMessage) (expected_fingerprint : String) : Bool :=
  if !m.was_encrypted then false
  else if m.signatures.isEmpty then false
  else if strIsEmpty expected_fingerprint then false
  else m.signatures.contains expected_fingerprint

/-- QR-scan state from `lot.rs` (not part of the provided sources).
Modelled from the spec: the decoded invitation is either a 1:1
verify-contact invitation, a verified-group invitation, or something else. -/
inductive LotState where
  | QrAskVerifyContact
  | QrAskVerifyGroup
  | QrOther
deriving Repr, DecidableEq

/-- Decoded QR invitation (`Lot` from `lot.rs`, not part of the provided
sources).  Modelled from the spec: "the decoded invitation: target contact
id, optional group id, fingerprint, shared secrets invitenumber/auth"; the
group id travels in `text2`. -/
structure Lot where
  state : LotState
  id : Nat
  fingerprint : Option String
  invitenumber : Option String
  auth : Option String
  text2 : Option String
deriving Repr, DecidableEq

/-- The process-wide joiner state `Context::bob`:
`status` (pending/success/fail), `expects` (next awaited step tag, `0` when
none), and the stored QR scan. -/
structure Bob where
  status : Nat
  expects : Nat
  qr_scan : Option Lot
deriving Repr, DecidableEq

/-- `enum Blocked` from `constants.rs` (not part of the provided sources).
Modelled from the spec: chats are either not blocked, in the deaddrop, or
manually blocked; the handshake only compares against `Not`. -/
inductive Blocked where
  | Not
  | Deaddrop
  | Manually
deriving Repr, DecidableEq

/-- `VerifiedStatus` from `contact.rs` (not part of the provided sources).
Modelled from the spec: a contact's trust level is unverified, one-way
verified, or bidirectionally verified. -/
inductive VerifiedStatus where
  | Unverified
  | Verified
  | BidirectVerified
deriving Repr, DecidableEq

/-- The contact fields read by the received-step handler. -/
structure ContactRec where
  verified : VerifiedStatus
deriving Repr, DecidableEq

/-- `enum HandshakeError` from `securejoin.rs`. -/
inductive HandshakeError where
  | SpecialContactId
  | NotSecureJoinMsg
  | NoChat (contact_id : Nat)
  | ChatNotFound (group : String)
  | NoSelfAddr
  | MsgSendFailed
deriving Repr, DecidableEq

/-- `enum HandshakeMessage` from `securejoin.rs`. -/
inductive HandshakeMessage where
  | Done
  | Ignore
  | Propagate
deriving Repr, DecidableEq

/-- Result of running a handler: either a Rust panic (an `unwrap()` of
`None`), a returned error, or a returned `HandshakeMessage`. -/
inductive Outcome where
  | panic
  | err (e : HandshakeError)
  | ok (h : HandshakeMessage)
deriving Repr, DecidableEq

/-- The handshake message constructed by `send_handshake_msg`: hidden text
message `"Secure-Join: <step>"` with the step in `Param::Arg`, the
auth-or-invitenumber in `Arg2`, the fingerprint in `Arg3`, the group id in
`Arg4`; `*-request` steps force plaintext with an Autocrypt header, all
other steps guarantee end-to-end encryption. -/
structure Message where
  text : String
  hidden : Bool
  arg : Option String
  arg2 : Option String
  arg3 : Option String
  arg4 : Option String
  forcePlaintext : Bool
  guaranteeE2ee : Bool
deriving Repr, DecidableEq

/-- Message construction part of `send_handshake_msg`. -/
def mkHandshakeMsg (step : String) (param2 : String) (fingerprint : Option String)
    (grpid : String) : Message :=
  { text := "Secure-Join: " ++ step
    hidden := true
    arg := if strIsEmpty step then none else some step
    arg2 := if strIsEmpty param2 then none else some param2
    arg3 := fingerprint
    arg4 := if strIsEmpty grpid then none else some grpid
    forcePlaintext := step == "vg-request" || step == "vc-request"
    guaranteeE2ee := !(step == "vg-request" || step == "vc-request") }

/-- Environment of the handshake code: the joiner state plus the external
collaborators the spec lists in section 6 (token store, chat/contact
storage, peerstate store, QR decoder, message transport, ongoing-process
flags), each as an abstract function. -/
structure Env where
  /-- current `Context::bob` -/
  bob : Bob
  /-- `token::exists(Namespace::InviteNumber, t)` -/
  inviteTokens : List String
  /-- `token::exists(Namespace::Auth, t)` -/
  authTokens : List String
  /-- `chat::get_chat_contacts(chat_id)` -/
  chatContacts : Nat → List Nat
  /-- `Contact::load_from_db(id)?.get_addr()` -/
  contactAddr : Nat → Option String
  /-- `Peerstate::from_addr(addr)?.public_key_fingerprint` -/
  peerstateFp : String → Option String
  /-- whether `Peerstate::from_fingerprint` finds a peerstate on which
  `set_verified` succeeds, for `mark_peer_as_verified` -/
  peerstateFromFpOk : String → Bool
  /-- `chat::create_or_lookup_by_contact_id` (`none` = `Err`) -/
  createOrLookupChat : Nat → Option (Nat × Blocked)
  /-- `chat::create_by_contact_id` (`none` = `Err`) -/
  createByContactId : Nat → Option Nat
  /-- `get_self_fingerprint` -/
  selfFingerprint : Option String
  /-- `Context::is_self_addr` (`none` = `Err`) -/
  isSelfAddr : String → Option Bool
  /-- `Contact::get_by_id` with its `is_verified` level (`none` = `Err`) -/
  contactById : Nat → Option ContactRec
  /-- `chat::get_chat_id_by_grpid` (`none` = `Err`) -/
  chatIdByGrpid : String → Option (Nat × Bool × Blocked)
  /-- whether `chat::send_msg` succeeds -/
  sendOk : Bool
  /-- `check_qr` on the scanned text -/
  checkQr : String → Lot
  /-- `Context::shall_stop_ongoing` at the check inside `securejoin` -/
  shallStopOngoing : Bool
  /-- whether `Context::alloc_ongoing` succeeds -/
  allocOngoingOk : Bool

/-- `dc_normalize_fingerprint` from `key.rs` (not part of the provided
sources).  Modelled from the spec: a fingerprint is "a fixed-length hex
digest", so normalization keeps the hex digits and uppercases them. -/
def dc_normalize_fingerprint (fp : String) : String :=
  String.mk ((fp.data.map Char.toUpper).filter fun c =>
    (('0' ≤ c && c ≤ '9') || ('A' ≤ c && c ≤ 'F')))

/-- `fingerprint_equals_sender` from `securejoin.rs`: the chat must have
exactly one contact, whose address has a peerstate whose stored public-key
fingerprint equals the normalized given fingerprint. -/
def fingerprint_equals_sender (env : Env) (fingerprint : String) (contact_chat_id : Nat) :
    Bool :=
  match env.chatContacts contact_chat_id with
  | [c] =>
    match env.contactAddr c with
    | some addr =>
      match env.peerstateFp addr with
      | some pk_fp => dc_normalize_fingerprint fingerprint == pk_fp
      | none => false
    | none => false
  | _ => false

/-- Observable result of `handle_securejoin_handshake` /
`observe_securejoin_on_other_device`: the outcome, the joiner state
afterwards, the handshake messages sent (chat id and message), the
fingerprints `mark_peer_as_verified` was invoked on, the
"could not establish secure connection" notices posted, and whether
`stop_ongoing` was called. -/
structure HR where
  out : Outcome
  bob : Bob
  sent : List (Nat × Message)
  markCalls : List String
  notices : List String
  stopped : Bool
deriving Repr, DecidableEq

/-- An `HR` with no effects recorded. -/
def HR.base (out : Outcome) (bob : Bob) : HR :=
  { out := out, bob := bob, sent := [], markCalls := [], notices := [], stopped := false }

/-- The out-of-sync check of the `*-auth-required` branch
(`securejoin.rs` lines 506-512): no stored scan, wrong `expects`, or a
`vg-` step whose stored scan is not a group invitation. -/
def auth_required_cond (bob : Bob) (join_vg : Bool) : Bool :=
  bob.qr_scan.isNone || bob.expects != DC_VC_AUTH_REQUIRED ||
    (join_vg &&
      (match bob.qr_scan with
       | some scan => scan.state != LotState.QrAskVerifyGroup
       | none => true))

/-- The out-of-sync check of the `vg-member-added`/`vc-contact-confirm`
branch (`securejoin.rs` lines 700-704): no stored scan, or a `vg-` step
whose stored scan is not a group invitation. -/
def contact_confirm_cond (bob : Bob) (join_vg : Bool) : Bool :=
  bob.qr_scan.isNone ||
    (join_vg &&
      (match bob.qr_scan with
       | some scan => scan.state != LotState.QrAskVerifyGroup
       | none => true))

/-- `handle_securejoin_handshake` from `securejoin.rs`, lines 426-835,
translated branch by branch.  `unwrap()` on a missing value is modelled as
`Outcome.panic`. -/
def handle_securejoin_handshake (env : Env) (m : MimeMessage) (contact_id : Nat) : HR :=
  if contact_id ≤ DC_CONTACT_ID_LAST_SPECIAL then
    HR.base (Outcome.err HandshakeError.SpecialContactId) env.bob
  else
    match m.get HeaderDef.SecureJoin with
    | none => HR.base (Outcome.err HandshakeError.NotSecureJoinMsg) env.bob
    | some step =>
      match env.createOrLookupChat contact_id with
      | none => HR.base (Outcome.err (HandshakeError.NoChat contact_id)) env.bob
      | some (contact_chat_id, _blocked) =>
        let join_vg := strStartsWith step "vg-"
        if step == "vg-request" || step == "vc-request" then
          -- Alice side, step 3: check the invitenumber token, reply auth-required.
          match m.get HeaderDef.SecureJoinInvitenumber with
          | none => HR.base (Outcome.ok HandshakeMessage.Ignore) env.bob
          | some invitenumber =>
            if !(env.inviteTokens.contains invitenumber) then
              HR.base (Outcome.ok HandshakeMessage.Ignore) env.bob
            else
              let msg := mkHandshakeMsg (strTake2 step ++ "-auth-required") "" none ""
              if env.sendOk then
                { HR.base (Outcome.ok HandshakeMessage.Done) env.bob with
                    sent := [(contact_chat_id, msg)] }
              else
                HR.base (Outcome.err HandshakeError.MsgSendFailed) env.bob
        else if step == "vg-auth-required" || step == "vc-auth-required" then
          -- Bob side, step 4: verify Alice's key against the scanned fingerprint.
          if auth_required_cond env.bob join_vg then
            HR.base (Outcome.ok HandshakeMessage.Ignore) env.bob
          else
            match env.bob.qr_scan with
            | none => HR.base Outcome.panic env.bob
            | some scan =>
              match scan.fingerprint, scan.auth with
              | some scanned_fingerprint_of_alice, some auth =>
                if !(encrypted_and_signed m scanned_fingerprint_of_alice) then
                  { HR.base (Outcome.ok HandshakeMessage.Ignore)
                      { env.bob with status := 0 } with
                      notices := [if m.was_encrypted then "No valid signature."
                                  else "Not encrypted."]
                      stopped := true }
                else if !(fingerprint_equals_sender env scanned_fingerprint_of_alice
                    contact_chat_id) then
                  { HR.base (Outcome.ok HandshakeMessage.Ignore)
                      { env.bob with status := 0 } with
                      notices := ["Fingerprint mismatch on joiner-side."]
                      stopped := true }
                else
                  match env.selfFingerprint with
                  | none => HR.base Outcome.panic env.bob
                  | some own_fingerprint =>
                    let bob2 := { env.bob with expects := DC_VC_CONTACT_CONFIRM }
                    let grpid? := if join_vg then scan.text2 else some ""
                    match grpid? with
                    | none => HR.base Outcome.panic bob2
                    | some grpid =>
                      let msg := mkHandshakeMsg (strTake2 step ++ "-request-with-auth")
                        auth (some own_fingerprint) grpid
                      if env.sendOk then
                        { HR.base (Outcome.ok HandshakeMessage.Done) bob2 with
                            sent := [(contact_chat_id, msg)] }
                      else
                        HR.base (Outcome.err HandshakeError.MsgSendFailed) bob2
              | _, _ => HR.base Outcome.panic env.bob
        else if step == "vg-request-with-auth" || step == "vc-request-with-auth" then
          -- Alice side, steps 5+6: verify Bob's fingerprint and auth token,
          -- mark peer verified, then confirm (1:1) or add to the group (vg).
          match m.get HeaderDef.SecureJoinFingerprint with
          | none =>
            { HR.base (Outcome.ok HandshakeMessage.Ignore) env.bob with
                notices := ["Fingerprint not provided."] }
          | some fingerprint =>
            if !(encrypted_and_signed m fingerprint) then
              { HR.base (Outcome.ok HandshakeMessage.Ignore) env.bob with
                  notices := ["Auth not encrypted."] }
            else if !(fingerprint_equals_sender env fingerprint contact_chat_id) then
              { HR.base (Outcome.ok HandshakeMessage.Ignore) env.bob with
                  notices := ["Fingerprint mismatch on inviter-side."] }
            else
              match m.get HeaderDef.SecureJoinAuth with
              | none =>
                { HR.base (Outcome.ok HandshakeMessage.Ignore) env.bob with
                    notices := ["Auth not provided."] }
              | some auth_0 =>
                if !(env.authTokens.contains auth_0) then
                  { HR.base (Outcome.ok HandshakeMessage.Ignore) env.bob with
                      notices := ["Auth invalid."] }
                else if !(env.peerstateFromFpOk fingerprint) then
                  { HR.base (Outcome.ok HandshakeMessage.Ignore) env.bob with
                      markCalls := [fingerprint]
                      notices := ["Fingerprint mismatch on inviter-side."] }
                else if join_vg then
                  match m.get HeaderDef.SecureJoinGroup with
                  | none =>
                    { HR.base (Outcome.ok HandshakeMessage.Ignore) env.bob with
                        markCalls := [fingerprint] }
                  | some field_grpid =>
                    match env.chatIdByGrpid field_grpid with
                    | some _ =>
                      { HR.base (Outcome.ok HandshakeMessage.Ignore) env.bob with
                          markCalls := [fingerprint] }
                    | none =>
                      { HR.base (Outcome.err (HandshakeError.ChatNotFound field_grpid))
                          env.bob with markCalls := [fingerprint] }
                else
                  let msg := mkHandshakeMsg "vc-contact-confirm" "" (some fingerprint) ""
                  if env.sendOk then
                    { HR.base (Outcome.ok HandshakeMessage.Ignore) env.bob with
                        sent := [(contact_chat_id, msg)]
                        markCalls := [fingerprint] }
                  else
                    { HR.base (Outcome.err HandshakeError.MsgSendFailed) env.bob with
                        markCalls := [fingerprint] }
        else if step == "vg-member-added" || step == "vc-contact-confirm" then
          -- Bob side, step 7: verify, mark peer verified, acknowledge.
          let abort_retval :=
            if join_vg then HandshakeMessage.Propagate else HandshakeMessage.Ignore
          if env.bob.expects != DC_VC_CONTACT_CONFIRM then
            HR.base (Outcome.ok abort_retval) env.bob
          else
            if contact_confirm_cond env.bob join_vg then
              HR.base (Outcome.ok abort_retval) env.bob
            else
              match env.bob.qr_scan with
              | none => HR.base Outcome.panic env.bob
              | some scan =>
                match scan.fingerprint with
                | none => HR.base Outcome.panic env.bob
                | some scanned_fingerprint_of_alice =>
                  let vg_expect_encrypted? : Option Bool :=
                    if join_vg then
                      match scan.text2 with
                      | none => none
                      | some group_id =>
                        some (((env.chatIdByGrpid group_id).getD
                          (0, false, Blocked.Not)).2.1)
                    else some true
                  match vg_expect_encrypted? with
                  | none => HR.base Outcome.panic env.bob
                  | some vg_expect_encrypted =>
                    if vg_expect_encrypted &&
                        !(encrypted_and_signed m scanned_fingerprint_of_alice) then
                      { HR.base (Outcome.ok abort_retval)
                          { env.bob with status := 0 } with
                          notices := ["Contact confirm message not encrypted."] }
                    else if !(env.peerstateFromFpOk scanned_fingerprint_of_alice) then
                      { HR.base (Outcome.ok abort_retval) env.bob with
                          markCalls := [scanned_fingerprint_of_alice]
                          notices := ["Fingerprint mismatch on joiner-side."] }
                    else
                      let cg_member_added :=
                        (m.get HeaderDef.ChatGroupMemberAdded).getD ""
                      let selfAddr? : Option Bool :=
                        if join_vg then env.isSelfAddr cg_member_added else some true
                      match selfAddr? with
                      | none =>
                        { HR.base (Outcome.err HandshakeError.NoSelfAddr) env.bob with
                            markCalls := [scanned_fingerprint_of_alice] }
                      | some is_self =>
                        if join_vg && !is_self then
                          { HR.base (Outcome.ok abort_retval) env.bob with
                              markCalls := [scanned_fingerprint_of_alice] }
                        else
                          let bob2 := { env.bob with expects := 0 }
                          let msg := mkHandshakeMsg
                            (if join_vg then "vg-member-added-received"
                             else "vc-contact-confirm-received")
                            "" (some scanned_fingerprint_of_alice) ""
                          if env.sendOk then
                            { HR.base
                                (Outcome.ok (if join_vg then HandshakeMessage.Propagate
                                             else HandshakeMessage.Ignore))
                                { bob2 with status := 1 } with
                                sent := [(contact_chat_id, msg)]
                                markCalls := [scanned_fingerprint_of_alice]
                                stopped := true }
                          else
                            { HR.base (Outcome.err HandshakeError.MsgSendFailed) bob2 with
                                markCalls := [scanned_fingerprint_of_alice] }
        else if step == "vg-member-added-received" ||
            step == "vc-contact-confirm-received" then
          -- Alice side, step 8: purely observational.
          match env.contactById contact_id with
          | some contact =>
            if contact.verified == VerifiedStatus.Unverified then
              HR.base (Outcome.ok HandshakeMessage.Ignore) env.bob
            else if join_vg then
              let field_grpid := (m.get HeaderDef.SecureJoinGroup).getD ""
              match env.chatIdByGrpid field_grpid with
              | none =>
                HR.base (Outcome.err (HandshakeError.ChatNotFound field_grpid)) env.bob
              | some _ => HR.base (Outcome.ok HandshakeMessage.Ignore) env.bob
            else HR.base (Outcome.ok HandshakeMessage.Ignore) env.bob
          | none => HR.base (Outcome.ok HandshakeMessage.Ignore) env.bob
        else
          HR.base (Outcome.ok HandshakeMessage.Ignore) env.bob

/-- `observe_securejoin_on_other_device` from `securejoin.rs`, lines
854-930: a second device of the same account re-derives the verification
outcome from a correctly self-signed confirm/received message. -/
def observe_securejoin_on_other_device (env : Env) (m : MimeMessage) (contact_id : Nat) :
    HR :=
  if contact_id ≤ DC_CONTACT_ID_LAST_SPECIAL then
    HR.base (Outcome.err HandshakeError.SpecialContactId) env.bob
  else
    match m.get HeaderDef.SecureJoin with
    | none => HR.base (Outcome.err HandshakeError.NotSecureJoinMsg) env.bob
    | some step =>
      match env.createOrLookupChat contact_id with
      | none => HR.base (Outcome.err (HandshakeError.NoChat contact_id)) env.bob
      | some (_contact_chat_id, _blocked) =>
        if step == "vg-member-added" || step == "vc-contact-confirm" ||
            step == "vg-member-added-received" ||
            step == "vc-contact-confirm-received" then
          if !(encrypted_and_signed m (env.selfFingerprint.getD "")) then
            { HR.base (Outcome.ok HandshakeMessage.Ignore) env.bob with
                notices := ["Message not encrypted correctly."] }
          else
            match m.get HeaderDef.SecureJoinFingerprint with
            | none =>
              { HR.base (Outcome.ok HandshakeMessage.Ignore) env.bob with
                  notices :=
                    ["Fingerprint not provided, please update Delta Chat on all your devices."] }
            | some fingerprint =>
              if !(env.peerstateFromFpOk fingerprint) then
                { HR.base (Outcome.ok HandshakeMessage.Ignore) env.bob with
                    markCalls := [fingerprint]
                    notices := ["Fingerprint mismatch on observing."] }
              else
                { HR.base
                    (Outcome.ok (if step == "vg-member-added" then
                      HandshakeMessage.Propagate else HandshakeMessage.Ignore))
                    env.bob with
                    markCalls := [fingerprint] }
        else HR.base (Outcome.ok HandshakeMessage.Ignore) env.bob

/-! ## The joiner entry point (`dc_join_securejoin` / `securejoin`) -/

/-- Result of `securejoin`: the returned chat id, the joiner state at
return, the handshake messages sent, whether the call blocked in the
wait-until-ongoing-stopped loop, and whether the ongoing process was
freed. -/
structure JoinResult where
  retChatId : Nat
  bob : Bob
  sent : List (Nat × Message)
  waited : Bool
  ongoingFreed : Bool
deriving Repr, DecidableEq

/-- `cleanup` from `securejoin.rs`: clears `expects`, computes the returned
chat id (the group chat for a successful group join, the contact chat for a
successful 1:1 join, `0` otherwise) and clears the stored QR scan.
`none` models the `unwrap()` panic when a successful group join has no
stored scan or group id. -/
def cleanup (env : Env) (bob : Bob) (contact_chat_id : Nat) (join_vg : Bool) :
    Option (Nat × Bob) :=
  let bob1 := { bob with expects := 0 }
  let ret? : Option Nat :=
    if bob1.status == DC_BOB_SUCCESS then
      if join_vg then
        match bob1.qr_scan with
        | none => none
        | some scan =>
          match scan.text2 with
          | none => none
          | some grp => some ((env.chatIdByGrpid grp).getD (0, false, Blocked.Not)).1
      else some contact_chat_id
    else some 0
  ret?.map fun r => (r, { bob1 with qr_scan := none })

/-- A `JoinResult` produced through `cleanup`. -/
def cleanupResult (env : Env) (bob : Bob) (contact_chat_id : Nat) (join_vg : Bool)
    (sent : List (Nat × Message)) (waited : Bool) (freed : Bool) : Option JoinResult :=
  (cleanup env bob contact_chat_id join_vg).map fun rb =>
    { retChatId := rb.1
      bob := rb.2
      sent := sent
      waited := waited
      ongoingFreed := freed }

/-- `securejoin` from `securejoin.rs`, lines 194-307: decode the QR, create
the contact chat, store the scan in `bob`, take the shortcut when the
scanned fingerprint already matches the sender's stored key, otherwise send
the initial request; group joins then block until the ongoing process is
stopped, 1:1 joins return immediately.  `none` models an `unwrap()`
panic. -/
def securejoin (env : Env) (qr : String) : Option JoinResult :=
  let bob0 := env.bob
  let qr_scan := env.checkQr qr
  if qr_scan.state != LotState.QrAskVerifyContact &&
      qr_scan.state != LotState.QrAskVerifyGroup then
    cleanupResult env bob0 0 false [] false true
  else
    match env.createByContactId qr_scan.id with
    | none => cleanupResult env bob0 0 false [] false true
    | some contact_chat_id =>
      if env.shallStopOngoing then
        cleanupResult env bob0 contact_chat_id false [] false true
      else
        let join_vg := qr_scan.state == LotState.QrAskVerifyGroup
        let bob1 := { bob0 with status := 0, qr_scan := some qr_scan }
        match qr_scan.fingerprint with
        | none => none
        | some scan_fp =>
          if fingerprint_equals_sender { env with bob := bob1 } scan_fp contact_chat_id then
            let bob2 := { bob1 with expects := DC_VC_CONTACT_CONFIRM }
            let own_fingerprint := env.selfFingerprint.getD ""
            match qr_scan.auth with
            | none => none
            | some auth =>
              let grpid? := if join_vg then qr_scan.text2 else some ""
              match grpid? with
              | none => none
              | some grpid =>
                let msg := mkHandshakeMsg
                  (if join_vg then "vg-request-with-auth" else "vc-request-with-auth")
                  auth (some own_fingerprint) grpid
                if env.sendOk then
                  if join_vg then
                    cleanupResult env bob2 contact_chat_id join_vg
                      [(contact_chat_id, msg)] true true
                  else
                    some { retChatId := contact_chat_id
                           bob := bob2
                           sent := [(contact_chat_id, msg)]
                           waited := false
                           ongoingFreed := true }
                else
                  cleanupResult env bob2 contact_chat_id join_vg [] false true
          else
            let bob2 := { bob1 with expects := DC_VC_AUTH_REQUIRED }
            match qr_scan.invitenumber with
            | none => none
            | some invitenumber =>
              let msg := mkHandshakeMsg
                (if join_vg then "vg-request" else "vc-request") invitenumber none ""
              if env.sendOk then
                if join_vg then
                  cleanupResult env bob2 contact_chat_id join_vg
                    [(contact_chat_id, msg)] true true
                else
                  some { retChatId := contact_chat_id
                         bob := bob2
                         sent := [(contact_chat_id, msg)]
                         waited := false
                         ongoingFreed := true }
              else
                cleanupResult env bob2 contact_chat_id join_vg [] false true

/-- `dc_join_securejoin` from `securejoin.rs`: allocate the ongoing process
(cleaning up without freeing it on failure), then run `securejoin`. -/
def dc_join_securejoin (env : Env) (qr : String) : Option JoinResult :=
  if env.allocOngoingOk then securejoin env qr
  else cleanupResult env env.bob 0 false [] false false

/-! ## QR generation (`dc_get_securejoin_qr`) -/

/-- UTF-8 bytes of one character, computed from its Unicode scalar value. -/
def utf8Bytes (c : Char) : List Nat :=
  let n := c.toNat
  if n < 128 then [n]
  else if n < 2048 then [192 + n / 64, 128 + n % 64]
  else if n < 65536 then [224 + n / 4096, 128 + (n / 64) % 64, 128 + n % 64]
  else [240 + n / 262144, 128 + (n / 4096) % 64, 128 + (n / 64) % 64, 128 + n % 64]

/-- Uppercase hex digit for a value below 16. -/
def hexDigitUpper (n : Nat) : Char :=
  if n < 10 then Char.ofNat (48 + n) else Char.ofNat (55 + n)

/-- Whether a byte is ASCII alphanumeric. -/
def isAsciiAlphanumByte (b : Nat) : Bool :=
  (48 ≤ b && b ≤ 57) || (65 ≤ b && b ≤ 90) || (97 ≤ b && b ≤ 122)

/-- Flatten a list of lists. -/
def listFlat {α β : Type} (f : α → List β) : List α → List β
  | [] => []
  | a :: as => f a ++ listFlat f as

/-- `utf8_percent_encode` over the `NON_ALPHANUMERIC` ascii set
(`keepDot = false`) or `NON_ALPHANUMERIC_WITHOUT_DOT` (`keepDot = true`):
every UTF-8 byte outside the safe set becomes `%XX` with uppercase hex. -/
def utf8_percent_encode (s : String) (keepDot : Bool) : String :=
  String.mk (listFlat (fun b =>
    if isAsciiAlphanumByte b || (keepDot && b == 46) then [Char.ofNat b]
    else ['%', hexDigitUpper (b / 16), hexDigitUpper (b % 16)])
    (listFlat utf8Bytes s.data))

/-- Chat fields read by the group branch of `dc_get_securejoin_qr`. -/
structure ChatRec where
  name : String
  grpid : String
deriving Repr, DecidableEq

/-- Environment of `dc_get_securejoin_qr`: the token store
(`lookup_or_new` per namespace), the configured address and display name,
the self-key fingerprint, and `Chat::load_from_db`. -/
structure QrEnv where
  lookupOrNewInvite : Nat → String
  lookupOrNewAuth : Nat → String
  configuredAddr : Option String
  displayname : Option String
  selfFingerprint : Option String
  chatLoad : Nat → Option ChatRec

/-- `dc_get_securejoin_qr` from `securejoin.rs`, lines 70-141: look up or
create the invitenumber and auth tokens, then render
`OPENPGP4FPR:<fp>#a=..&g=..&x=..&i=..&s=..` for a group invitation or
`OPENPGP4FPR:<fp>#a=..&n=..&i=..&s=..` for a 1:1 invitation
(`group_chat_id.is_unset()` is `id == 0`). -/
def dc_get_securejoin_qr (env : QrEnv) (group_chat_id : Nat) : Option String :=
  let invitenumber := env.lookupOrNewInvite group_chat_id
  let auth := env.lookupOrNewAuth group_chat_id
  match env.configuredAddr with
  | none => none
  | some self_addr =>
    let self_name := env.displayname.getD ""
    match env.selfFingerprint with
    | none => none
    | some fingerprint =>
      let self_addr_urlencoded := utf8_percent_encode self_addr true
      let self_name_urlencoded := utf8_percent_encode self_name true
      if group_chat_id != 0 then
        match env.chatLoad group_chat_id with
        | some chat =>
          some ("OPENPGP4FPR:" ++ fingerprint ++ "#a=" ++ self_addr_urlencoded ++
            "&g=" ++ utf8_percent_encode chat.name false ++ "&x=" ++ chat.grpid ++
            "&i=" ++ invitenumber ++ "&s=" ++ auth)
        | none => none
      else
        some ("OPENPGP4FPR:" ++ fingerprint ++ "#a=" ++ self_addr_urlencoded ++
          "&n=" ++ self_name_urlencoded ++ "&i=" ++ invitenumber ++ "&s=" ++ auth)

/-! ## Auxiliary definitions for the claims -/

/-- The ten step names `handle_securejoin_handshake` dispatches on. -/
def knownSteps : List String :=
  ["vg-request", "vc-request", "vg-auth-required", "vc-auth-required",
   "vg-request-with-auth", "vc-request-with-auth", "vg-member-added",
   "vc-contact-confirm", "vg-member-added-received", "vc-contact-confirm-received"]

/-- The step-mismatch condition of the claim about ignored handshake
messages: the joiner-side out-of-sync checks of the auth-required and
confirm branches (exactly the source's conditions), or an unknown step
name. -/
def handshake_step_mismatch (bob : Bob) (step : String) : Bool :=
  if step == "vg-auth-required" || step == "vc-auth-required" then
    auth_required_cond bob (strStartsWith step "vg-")
  else if step == "vg-member-added" || step == "vc-contact-confirm" then
    (bob.expects != DC_VC_CONTACT_CONFIRM) ||
      contact_confirm_cond bob (strStartsWith step "vg-")
  else !(knownSteps.contains step)

/-- Whether a character is a hex digit. -/
def isHexDigitChar (c : Char) : Bool :=
  ('0' ≤ c && c ≤ '9') || ('A' ≤ c && c ≤ 'F') || ('a' ≤ c && c ≤ 'f')

/-! ## Concrete fixtures used by witnesses and counterexamples -/

/-- A decoded 1:1 invitation. -/
def wScanC : Lot :=
  { state := LotState.QrAskVerifyContact, id := 3, fingerprint := some "AA"
    invitenumber := some "inv1", auth := some "auth1", text2 := some "grp1" }

/-- A decoded verified-group invitation. -/
def wScanG : Lot :=
  { state := LotState.QrAskVerifyGroup, id := 3, fingerprint := some "AA"
    invitenumber := some "inv1", auth := some "auth1", text2 := some "grp1" }

/-- A base environment: contact 3 with address `alice@example.org` in chat 7,
whose peerstate stores fingerprint `AA`. -/
def wEnvBase : Env :=
  { bob := ⟨0, 0, none⟩
    inviteTokens := ["inv1"]
    authTokens := ["auth1"]
    chatContacts := fun c => if c = 7 then [3] else []
    contactAddr := fun i => if i = 3 then some "alice@example.org" else none
    peerstateFp := fun a => if a = "alice@example.org" then some "AA" else none
    peerstateFromFpOk := fun _ => true
    createOrLookupChat := fun _ => some (7, Blocked.Not)
    createByContactId := fun _ => some 7
    selfFingerprint := some "SELF"
    isSelfAddr := fun _ => some true
    contactById := fun _ => some ⟨VerifiedStatus.BidirectVerified⟩
    chatIdByGrpid := fun _ => some (9, false, Blocked.Not)
    sendOk := true
    checkQr := fun _ => wScanC
    shallStopOngoing := false
    allocOngoingOk := true }

/-- An empty MIME message. -/
def wMsgEmpty : MimeMessage :=
  { secureJoin := none, secureJoinInvitenumber := none, secureJoinAuth := none
    secureJoinFingerprint := none, secureJoinGroup := none
    chatGroupMemberAdded := none, signatures := [] }

/-- An unencrypted `vc-contact-confirm`. -/
def wMsgC1 : MimeMessage := { wMsgEmpty with secureJoin := some "vc-contact-confirm" }

/-- A joiner awaiting the contact-confirm step for the scanned 1:1 invite. -/
def wEnvC1 : Env := { wEnvBase with bob := ⟨0, DC_VC_CONTACT_CONFIRM, some wScanC⟩ }

/-- A well-formed `vc-request-with-auth` carrying an auth token that is not
in the token store. -/
def wMsgC2 : MimeMessage :=
  { wMsgEmpty with
      secureJoin := some "vc-request-with-auth"
      secureJoinFingerprint := some "AA"
      secureJoinAuth := some "badauth"
      signatures := ["AA"] }

/-- The invitation used by the C5 counterexample (no group id stored). -/
def scanC5 : Lot :=
  { state := LotState.QrAskVerifyContact, id := 3, fingerprint := some "AABB"
    invitenumber := some "inv1", auth := some "auth1", text2 := none }

/-- An environment where the scanned fingerprint matches no stored key, so
`securejoin` takes the `vc-request` path. -/
def envC5 : Env :=
  { wEnvBase with
      peerstateFp := fun _ => none
      checkQr := fun _ => scanC5 }

/-- A group-invitation environment for the C5 witness. -/
def wEnvC5g : Env :=
  { wEnvBase with
      peerstateFp := fun _ => none
      checkQr := fun _ => wScanG }

/-- A 1:1-invitation environment for the C5 witness. -/
def wEnvC5c : Env :=
  { wEnvBase with
      peerstateFp := fun _ => none
      checkQr := fun _ => wScanC }

/-- An environment whose stored key matches the scanned fingerprint `AA`
(shortcut applies). -/
def wEnvC6m : Env := wEnvBase

/-- An environment with no stored key (shortcut does not apply). -/
def wEnvC6n : Env := { wEnvBase with peerstateFp := fun _ => none }

/-- A joiner awaiting auth-required for the scanned 1:1 invite. -/
def wEnvC6a : Env := { wEnvBase with bob := ⟨0, DC_VC_AUTH_REQUIRED, some wScanC⟩ }

/-- A correctly signed `vc-auth-required` from the scanned fingerprint. -/
def wMsgC6 : MimeMessage :=
  { wMsgEmpty with secureJoin := some "vc-auth-required", signatures := ["AA"] }

/-- A message with an unknown handshake step name. -/
def wMsgC7 : MimeMessage := { wMsgEmpty with secureJoin := some "vx-unknown" }

/-- A QR-generation environment configured as `alice@example.org` / `Alice`. -/
def wQrEnv : QrEnv :=
  { lookupOrNewInvite := fun _ => "inv1"
    lookupOrNewAuth := fun _ => "auth1"
    configuredAddr := some "alice@example.org"
    displayname := some "Alice"
    selfFingerprint := some "00112233445566778899AABBCCDDEEFF00112233"
    chatLoad := fun _ => none }

/-- An observer device that cannot load its own key. -/
def wEnvC10 : Env := { wEnvBase with selfFingerprint := none }

/-- A signed confirm message as seen by the observer. -/
def wMsgC10 : MimeMessage :=
  { wMsgEmpty with
      secureJoin := some "vc-contact-confirm"
      secureJoinFingerprint := some "AA"
      signatures := ["SELF"] }

/-! ## Helper lemmas -/

/-- When a message is unencrypted or its signature set misses the expected
fingerprint, `encrypted_and_signed` rejects it. -/
theorem encrypted_and_signed_false_of (m : MimeMessage) (fp : String)
    (h : m.was_encrypted = false ∨ m.signatures.contains fp = false) :
    encrypted_and_signed m fp = false := by
  unfold encrypted_and_signed
  rcases h with h | h
  · simp [h]
  · split
    · rfl
    · split
      · rfl
      · split
        · rfl
        · exact h

/-- `fingerprint_equals_sender` does not read the joiner state. -/
theorem fingerprint_equals_sender_bob (env : Env) (b : Bob) (fp : String) (c : Nat) :
    fingerprint_equals_sender { env with bob := b } fp c =
      fingerprint_equals_sender env fp c := rfl

/-- Merging the literal fragments of the 1:1 QR text. -/
theorem qr_format_merge (f i a : String) :
    "OPENPGP4FPR:" ++ f ++ "#a=" ++ "alice%40example.org" ++ "&n=" ++ "Alice" ++
        "&i=" ++ i ++ "&s=" ++ a =
      "OPENPGP4FPR:" ++ f ++ "#a=alice%40example.org&n=Alice&i=" ++ i ++ "&s=" ++ a := by
  apply String.ext
  have hm : ("#a=alice%40example.org&n=Alice&i=").data =
      "#a=".data ++ "alice%40example.org".data ++ "&n=".data ++ "Alice".data ++
        "&i=".data := by
    decide
  simp [String.data_append, hm, List.append_assoc]

/-! ## Claim theorems -/

/-- C3: the claim says `Scheduler::start` panics when the state is already
`Running`.  The code (and its own doc comment notwithstanding) contains no
such check: evaluated on a `Running` state, `start` does not panic and
silently overwrites the state with a fresh `Running` scheduler. -/
theorem c3_start_on_running_does_not_panic :
    (SchedState.start (SchedState.Running ⟨true, true, true, true⟩)).panics = false ∧
      (SchedState.start (SchedState.Running ⟨true, true, true, true⟩)).state =
        SchedState.Running ⟨true, true, true, true⟩ := by
  decide

/-- C4 counterexample: with 20 jobs already run consecutively and a job
ready, the inbox loop still executes the job (the guard is
`jobs_loaded <= 20`), so "executed only when fewer than 20 jobs have run
consecutively" is false. -/
theorem c4_job_executes_at_twenty_counterexample :
    (inbox_step true false ⟨20, true⟩).2 = InboxAction.ranJob ∧ ¬(20 < 20) := by
  decide

/-- C4 amended: a ready job is executed exactly when at most 20 jobs have
run consecutively (so up to 21 run back-to-back); executing it clears the
probe-network info and increments the counter; when a job is ready but the
counter exceeds 20, one fetch cycle is performed instead and the counter is
reset. -/
theorem c4_inbox_budget (jobAvailable fetchIdleResult : Bool) (s : InboxState) :
    ((inbox_step jobAvailable fetchIdleResult s).2 = InboxAction.ranJob ↔
      jobAvailable = true ∧ s.jobs_loaded ≤ 20) ∧
    ((inbox_step jobAvailable fetchIdleResult s).2 = InboxAction.ranJob →
      (inbox_step jobAvailable fetchIdleResult s).1.probe_network = false ∧
        (inbox_step jobAvailable fetchIdleResult s).1.jobs_loaded = s.jobs_loaded + 1) ∧
    (jobAvailable = true → 20 < s.jobs_loaded →
      (inbox_step jobAvailable fetchIdleResult s).2 = InboxAction.postponedFetch ∧
        (inbox_step jobAvailable fetchIdleResult s).1.jobs_loaded = 0 ∧
        (inbox_step jobAvailable fetchIdleResult s).1.probe_network = s.probe_network) := by
  cases jobAvailable with
  | false => simp [inbox_step]
  | true =>
    by_cases h : s.jobs_loaded ≤ 20
    · simp [inbox_step, h]
    · simp [inbox_step, h]

/-- C4 witness: at counter 21 with a job ready, the loop performs one fetch
and resets the counter. -/
theorem c4_inbox_budget_witness :
    (inbox_step true false ⟨21, true⟩).2 = InboxAction.postponedFetch ∧
      (inbox_step true false ⟨21, true⟩).1.jobs_loaded = 0 ∧
      (inbox_step true false ⟨21, true⟩).1.probe_network = (⟨21, true⟩ : InboxState).probe_network :=
  (c4_inbox_budget true false ⟨21, true⟩).2.2 rfl (by decide)

/-- C8: any sequence of `interrupt_inbox` / `interrupt_mvbox` /
`interrupt_sentbox` / `interrupt_smtp` / `maybe_network` calls made while
the scheduler is `Stopped` is a no-op: the state stays `Stopped`, no call
panics, none blocks the caller, and no interrupt payload is delivered. -/
theorem c8_interrupts_noop_when_stopped (cs : List SchedCall) :
    schedRun SchedState.Stopped cs = (SchedState.Stopped, false, false, []) := by
  induction cs with
  | nil => rfl
  | cons c cs ih =>
    cases c <;>
      simp [schedRun, schedDispatch, SchedState.interrupt_inbox,
        SchedState.interrupt_mvbox, SchedState.interrupt_sentbox,
        SchedState.interrupt_smtp, SchedState.maybe_network, SchedState.is_running, ih]

/-- C1: a `vc-contact-confirm` handled on the joiner side while
`expects = ContactConfirm`, which is unencrypted or whose signature set
does not contain the scanned fingerprint of the inviter, never reaches
`mark_peer_as_verified` and resolves to an `Ignore` outcome. -/
theorem c1_contact_confirm_unverified_never_marks (env : Env) (m : MimeMessage)
    (contact_id ccid : Nat) (b : Blocked) (scan : Lot) (fp : String)
    (hcid : DC_CONTACT_ID_LAST_SPECIAL < contact_id)
    (hstep : m.get HeaderDef.SecureJoin = some "vc-contact-confirm")
    (hchat : env.createOrLookupChat contact_id = some (ccid, b))
    (hexp : env.bob.expects = DC_VC_CONTACT_CONFIRM)
    (hscan : env.bob.qr_scan = some scan)
    (hfp : scan.fingerprint = some fp)
    (hbad : m.was_encrypted = false ∨ m.signatures.contains fp = false) :
    (handle_securejoin_handshake env m contact_id).out =
        Outcome.ok HandshakeMessage.Ignore ∧
      (handle_securejoin_handshake env m contact_id).markCalls = [] := by
  have hes := encrypted_and_signed_false_of m fp hbad
  have hlt : ¬ (contact_id ≤ DC_CONTACT_ID_LAST_SPECIAL) := Nat.not_le.mpr hcid
  unfold handle_securejoin_handshake
  rw [if_neg hlt, hstep, hchat]
  simp [hexp, hscan, hfp, hes, HR.base, strStartsWith, contact_confirm_cond]

/-- C1 witness: an unencrypted `vc-contact-confirm` at a joiner awaiting it
is ignored without any trust update. -/
theorem c1_witness :
    (handle_securejoin_handshake wEnvC1 wMsgC1 10).out =
        Outcome.ok HandshakeMessage.Ignore ∧
      (handle_securejoin_handshake wEnvC1 wMsgC1 10).markCalls = [] :=
  c1_contact_confirm_unverified_never_marks wEnvC1 wMsgC1 10 7 Blocked.Not wScanC "AA"
    (by decide) rfl rfl rfl rfl rfl (Or.inl rfl)

/-- C2: a `vc-request-with-auth`/`vg-request-with-auth` whose
`Secure-Join-Auth` header value does not exist in the Auth namespace of
the token store resolves to `Ok(Ignore)` and never reaches
`mark_peer_as_verified`. -/
theorem c2_bad_auth_token_ignored (env : Env) (m : MimeMessage)
    (contact_id ccid : Nat) (b : Blocked) (step auth : String)
    (hcid : DC_CONTACT_ID_LAST_SPECIAL < contact_id)
    (hstep : m.get HeaderDef.SecureJoin = some step)
    (hvar : step = "vc-request-with-auth" ∨ step = "vg-request-with-auth")
    (hchat : env.createOrLookupChat contact_id = some (ccid, b))
    (hauth : m.get HeaderDef.SecureJoinAuth = some auth)
    (htok : env.authTokens.contains auth = false) :
    (handle_securejoin_handshake env m contact_id).out =
        Outcome.ok HandshakeMessage.Ignore ∧
      (handle_securejoin_handshake env m contact_id).markCalls = [] := by
  have hlt : ¬ (contact_id ≤ DC_CONTACT_ID_LAST_SPECIAL) := Nat.not_le.mpr hcid
  have htok' : auth ∉ env.authTokens := by simpa using htok
  unfold handle_securejoin_handshake
  rw [if_neg hlt, hstep, hchat]
  rcases hvar with h | h <;> subst h <;>
    cases hf : m.get HeaderDef.SecureJoinFingerprint with
  | none => simp [HR.base, hf]
  | some fingerprint =>
    by_cases he : encrypted_and_signed m fingerprint <;>
      by_cases hq : fingerprint_equals_sender env fingerprint ccid <;>
        simp [hf, he, hq, hauth, htok', HR.base]

/-- C2 witness: a fully well-formed `vc-request-with-auth` whose auth token
is not stored is ignored without any trust update. -/
theorem c2_witness :
    (handle_securejoin_handshake wEnvBase wMsgC2 10).out =
        Outcome.ok HandshakeMessage.Ignore ∧
      (handle_securejoin_handshake wEnvBase wMsgC2 10).markCalls = [] :=
  c2_bad_auth_token_ignored wEnvBase wMsgC2 10 7 Blocked.Not "vc-request-with-auth"
    "badauth" (by decide) rfl (Or.inl rfl) rfl rfl (by decide)

/-- C5 counterexample: on a valid 1:1 invitation whose fingerprint matches
no stored key, `securejoin` returns the contact chat id immediately
(`waited = false`) while the handshake is still in progress
(`expects = AuthRequired ≠ 0` and the scan still stored), refuting "never
returns while the handshake is still in progress". -/
theorem c5_returns_during_handshake_counterexample :
    ((securejoin envC5 "qr").map fun r =>
        (r.waited, r.bob.expects, r.bob.qr_scan.isSome, r.retChatId)) =
        some (false, DC_VC_AUTH_REQUIRED, true, 7) ∧
      DC_VC_AUTH_REQUIRED ≠ 0 := by
  constructor
  · rfl
  · decide

/-- C5 amended: a group join blocks in the wait loop until the ongoing
process stops and returns only after cleanup (joiner state cleared); a 1:1
join returns the contact chat id immediately after sending the first
handshake message, with the handshake still pending in the background. -/
theorem c5_blocking_behavior (env : Env) (qr : String) (scan : Lot)
    (fp au inv t2 : String) (ccid : Nat)
    (hscan : env.checkQr qr = scan)
    (hfp : scan.fingerprint = some fp) (hau : scan.auth = some au)
    (hinv : scan.invitenumber = some inv) (ht2 : scan.text2 = some t2)
    (hcc : env.createByContactId scan.id = some ccid)
    (hstop : env.shallStopOngoing = false) (hsend : env.sendOk = true) :
    (scan.state = LotState.QrAskVerifyGroup →
      ∃ r, securejoin env qr = some r ∧ r.waited = true ∧ r.bob.expects = 0 ∧
        r.bob.qr_scan = none) ∧
    (scan.state = LotState.QrAskVerifyContact →
      ∃ r, securejoin env qr = some r ∧ r.waited = false ∧ r.retChatId = ccid ∧
        r.bob.expects ≠ 0 ∧ r.bob.qr_scan = some scan) := by
  constructor
  · intro hst
    unfold securejoin
    rw [hscan]
    simp only [hst, hcc, hstop, hsend, hfp, hau, hinv, ht2]
    rw [if_neg (by decide), if_neg (by decide)]
    split
    · simp [cleanupResult, cleanup, DC_BOB_SUCCESS]
    · simp [cleanupResult, cleanup, DC_BOB_SUCCESS]
  · intro hst
    unfold securejoin
    rw [hscan]
    simp only [hst, hcc, hstop, hsend, hfp, hau, hinv, ht2]
    rw [if_neg (by decide), if_neg (by decide)]
    split
    · simp [DC_VC_CONTACT_CONFIRM]
    · simp [DC_VC_AUTH_REQUIRED]

/-- C5 witness: concrete group and 1:1 joins showing the two behaviours. -/
theorem c5_blocking_behavior_witness :
    (∃ r, securejoin wEnvC5g "qr" = some r ∧ r.waited = true ∧ r.bob.expects = 0 ∧
      r.bob.qr_scan = none) ∧
    (∃ r, securejoin wEnvC5c "qr" = some r ∧ r.waited = false ∧ r.retChatId = 7 ∧
      r.bob.expects ≠ 0 ∧ r.bob.qr_scan = some wScanC) :=
  ⟨(c5_blocking_behavior wEnvC5g "qr" wScanG "AA" "auth1" "inv1" "grp1" 7
      rfl rfl rfl rfl rfl rfl rfl rfl).1 rfl,
   (c5_blocking_behavior wEnvC5c "qr" wScanC "AA" "auth1" "inv1" "grp1" 7
      rfl rfl rfl rfl rfl rfl rfl rfl).2 rfl⟩

/-- C6: when the scanned fingerprint already matches the stored key of the
invited contact, the joiner sends `vc-request-with-auth` as its only
outbound message and awaits `ContactConfirm`; otherwise it first sends
`vc-request` awaiting `AuthRequired`, and the subsequent valid
`vc-auth-required` triggers the second outbound message
`vc-request-with-auth` with `expects = ContactConfirm`. -/
theorem c6_shortcut_vs_roundtrip :
    (∀ (env : Env) (qr : String) (scan : Lot) (fp au inv : String) (ccid : Nat),
      env.checkQr qr = scan →
      scan.state = LotState.QrAskVerifyContact →
      scan.fingerprint = some fp → scan.auth = some au →
      scan.invitenumber = some inv →
      env.createByContactId scan.id = some ccid →
      env.shallStopOngoing = false → env.sendOk = true →
      (fingerprint_equals_sender env fp ccid = true →
        ∃ r, securejoin env qr = some r ∧
          r.sent = [(ccid, mkHandshakeMsg "vc-request-with-auth" au
            (some (env.selfFingerprint.getD "")) "")] ∧
          r.bob.expects = DC_VC_CONTACT_CONFIRM) ∧
      (fingerprint_equals_sender env fp ccid = false →
        ∃ r, securejoin env qr = some r ∧
          r.sent = [(ccid, mkHandshakeMsg "vc-request" inv none "")] ∧
          r.bob.expects = DC_VC_AUTH_REQUIRED)) ∧
    (∀ (env2 : Env) (m2 : MimeMessage) (cid2 ccid2 : Nat) (b2 : Blocked) (scan2 : Lot)
        (fp2 au2 ofp : String),
      DC_CONTACT_ID_LAST_SPECIAL < cid2 →
      m2.get HeaderDef.SecureJoin = some "vc-auth-required" →
      env2.createOrLookupChat cid2 = some (ccid2, b2) →
      env2.bob.expects = DC_VC_AUTH_REQUIRED →
      env2.bob.qr_scan = some scan2 →
      scan2.fingerprint = some fp2 → scan2.auth = some au2 →
      encrypted_and_signed m2 fp2 = true →
      fingerprint_equals_sender env2 fp2 ccid2 = true →
      env2.selfFingerprint = some ofp →
      env2.sendOk = true →
      (handle_securejoin_handshake env2 m2 cid2).out =
          Outcome.ok HandshakeMessage.Done ∧
        (handle_securejoin_handshake env2 m2 cid2).sent =
          [(ccid2, mkHandshakeMsg "vc-request-with-auth" au2 (some ofp) "")] ∧
        (handle_securejoin_handshake env2 m2 cid2).bob.expects =
          DC_VC_CONTACT_CONFIRM) := by
  constructor
  · intro env qr scan fp au inv ccid hscan hst hfp hau hinv hcc hstop hsend
    constructor <;> intro hm <;>
      · unfold securejoin
        rw [hscan]
        simp only [hst, hcc, hfp, hau, hinv]
        rw [if_neg (by decide), if_neg (by simp [hstop]),
          fingerprint_equals_sender_bob, hm]
        simp [hsend, DC_VC_CONTACT_CONFIRM, DC_VC_AUTH_REQUIRED]
  · intro env2 m2 cid2 ccid2 b2 scan2 fp2 au2 ofp hcid hstep hchat hexp hscan2 hfp2 hau2
      hes hq hofp hsend
    have hlt : ¬ (cid2 ≤ DC_CONTACT_ID_LAST_SPECIAL) := Nat.not_le.mpr hcid
    have hname : strTake2 "vc-auth-required" ++ "-request-with-auth" =
        "vc-request-with-auth" := by decide
    unfold handle_securejoin_handshake
    rw [if_neg hlt, hstep, hchat]
    simp [auth_required_cond, hexp, hscan2, hfp2, hau2, hes, hq, hofp, hsend, HR.base,
      hname, strStartsWith]

/-- C6 witness: the shortcut join, the non-shortcut join, and the follow-up
auth-required handling, on concrete environments. -/
theorem c6_shortcut_vs_roundtrip_witness :
    (∃ r, securejoin wEnvC6m "qr" = some r ∧
      r.sent = [(7, mkHandshakeMsg "vc-request-with-auth" "auth1"
        (some (wEnvC6m.selfFingerprint.getD "")) "")] ∧
      r.bob.expects = DC_VC_CONTACT_CONFIRM) ∧
    (∃ r, securejoin wEnvC6n "qr" = some r ∧
      r.sent = [(7, mkHandshakeMsg "vc-request" "inv1" none "")] ∧
      r.bob.expects = DC_VC_AUTH_REQUIRED) ∧
    ((handle_securejoin_handshake wEnvC6a wMsgC6 10).out =
        Outcome.ok HandshakeMessage.Done ∧
      (handle_securejoin_handshake wEnvC6a wMsgC6 10).sent =
        [(7, mkHandshakeMsg "vc-request-with-auth" "auth1" (some "SELF") "")] ∧
      (handle_securejoin_handshake wEnvC6a wMsgC6 10).bob.expects =
        DC_VC_CONTACT_CONFIRM) :=
  ⟨(c6_shortcut_vs_roundtrip.1 wEnvC6m "qr" wScanC "AA" "auth1" "inv1" 7
      rfl rfl rfl rfl rfl rfl rfl rfl).1 (by decide),
   (c6_shortcut_vs_roundtrip.1 wEnvC6n "qr" wScanC "AA" "auth1" "inv1" 7
      rfl rfl rfl rfl rfl rfl rfl rfl).2 (by decide),
   c6_shortcut_vs_roundtrip.2 wEnvC6a wMsgC6 10 7 Blocked.Not wScanC "AA" "auth1"
      "SELF" (by decide) rfl rfl rfl rfl rfl rfl (by decide) (by decide) rfl rfl⟩

/-- C7: an incoming handshake message whose step is out of sync with the
joiner state (wrong `expects`, missing or wrong-variant stored scan) or
whose step name is unknown resolves to `Ok` with an `Ignore` or
`Propagate` outcome, never to an `Err`. -/
theorem c7_step_mismatch_never_errors (env : Env) (m : MimeMessage)
    (contact_id ccid : Nat) (b : Blocked) (step : String)
    (hcid : DC_CONTACT_ID_LAST_SPECIAL < contact_id)
    (hstep : m.get HeaderDef.SecureJoin = some step)
    (hchat : env.createOrLookupChat contact_id = some (ccid, b))
    (hmis : handshake_step_mismatch env.bob step = true) :
    (handle_securejoin_handshake env m contact_id).out =
        Outcome.ok HandshakeMessage.Ignore ∨
      (handle_securejoin_handshake env m contact_id).out =
        Outcome.ok HandshakeMessage.Propagate := by
  have hlt : ¬ (contact_id ≤ DC_CONTACT_ID_LAST_SPECIAL) := Nat.not_le.mpr hcid
  unfold handle_securejoin_handshake
  rw [if_neg hlt, hstep, hchat]
  unfold handshake_step_mismatch at hmis
  by_cases e1 : step = "vg-auth-required"
  · subst e1
    simp [strStartsWith] at hmis
    simp [hmis, HR.base, strStartsWith]
  by_cases e2 : step = "vc-auth-required"
  · subst e2
    simp [strStartsWith] at hmis
    simp [hmis, HR.base, strStartsWith]
  by_cases e3 : step = "vg-member-added"
  · subst e3
    by_cases hy : env.bob.expects = DC_VC_CONTACT_CONFIRM
    · simp [strStartsWith, hy, DC_VC_CONTACT_CONFIRM] at hmis
      simp [hy, hmis, HR.base, strStartsWith]
    · simp [hy, HR.base]
  by_cases e4 : step = "vc-contact-confirm"
  · subst e4
    by_cases hy : env.bob.expects = DC_VC_CONTACT_CONFIRM
    · simp [strStartsWith, hy, DC_VC_CONTACT_CONFIRM] at hmis
      simp [hy, hmis, HR.base, strStartsWith]
    · simp [hy, HR.base]
  by_cases e5 : step = "vg-request"
  · subst e5; simp [knownSteps] at hmis
  by_cases e6 : step = "vc-request"
  · subst e6; simp [knownSteps] at hmis
  by_cases e7 : step = "vg-request-with-auth"
  · subst e7; simp [knownSteps] at hmis
  by_cases e8 : step = "vc-request-with-auth"
  · subst e8; simp [knownSteps] at hmis
  by_cases e9 : step = "vg-member-added-received"
  · subst e9; simp [knownSteps] at hmis
  by_cases e10 : step = "vc-contact-confirm-received"
  · subst e10; simp [knownSteps] at hmis
  simp [e1, e2, e3, e4, e5, e6, e7, e8, e9, e10, HR.base]

/-- C7 witness: an unknown step name is ignored, not an error. -/
theorem c7_witness :
    (handle_securejoin_handshake wEnvBase wMsgC7 10).out =
        Outcome.ok HandshakeMessage.Ignore ∨
      (handle_securejoin_handshake wEnvBase wMsgC7 10).out =
        Outcome.ok HandshakeMessage.Propagate :=
  c7_step_mismatch_never_errors wEnvBase wMsgC7 10 7 Blocked.Not "vx-unknown"
    (by decide) rfl rfl (by decide)

/-- C9: for a 1:1 invitation with configured address `alice@example.org`
and display name `Alice`, the generated QR text is `OPENPGP4FPR:` followed
by the self-key fingerprint (a 40-character hex string by hypothesis on the
external key module), then `#a=alice%40example.org&n=Alice&i=<invite>` and
`&s=<auth>` with both tokens coming from the token store. -/
theorem c9_qr_format (env : QrEnv) (fp : String)
    (haddr : env.configuredAddr = some "alice@example.org")
    (hname : env.displayname = some "Alice")
    (hfp : env.selfFingerprint = some fp)
    (hlen : fp.length = 40)
    (hhex : fp.data.all isHexDigitChar = true) :
    dc_get_securejoin_qr env 0 =
        some ("OPENPGP4FPR:" ++ fp ++ "#a=alice%40example.org&n=Alice&i=" ++
          env.lookupOrNewInvite 0 ++ "&s=" ++ env.lookupOrNewAuth 0) ∧
      fp.length = 40 ∧ fp.data.all isHexDigitChar = true := by
  have henc : utf8_percent_encode "alice@example.org" true = "alice%40example.org" := by
    decide
  have henc2 : utf8_percent_encode "Alice" true = "Alice" := by decide
  refine ⟨?_, hlen, hhex⟩
  unfold dc_get_securejoin_qr
  rw [haddr, hfp]
  simp only [hname, henc, henc2, Option.getD_some]
  rw [← qr_format_merge fp (env.lookupOrNewInvite 0) (env.lookupOrNewAuth 0)]
  simp

/-- C9 witness: the QR text generated for a concrete environment. -/
theorem c9_qr_format_witness :
    dc_get_securejoin_qr wQrEnv 0 =
        some ("OPENPGP4FPR:" ++ "00112233445566778899AABBCCDDEEFF00112233" ++
          "#a=alice%40example.org&n=Alice&i=" ++ wQrEnv.lookupOrNewInvite 0 ++
          "&s=" ++ wQrEnv.lookupOrNewAuth 0) ∧
      ("00112233445566778899AABBCCDDEEFF00112233" : String).length = 40 ∧
      ("00112233445566778899AABBCCDDEEFF00112233" : String).data.all
        isHexDigitChar = true :=
  c9_qr_format wQrEnv "00112233445566778899AABBCCDDEEFF00112233" rfl rfl rfl
    (by decide) (by decide)

/-- C10: `encrypted_and_signed` rejects every message when the expected
fingerprint is empty; consequently an observer device that cannot load its
self fingerprint (defaulted to the empty string) never marks any peer
verified and resolves to an `Ignore` outcome. -/
theorem c10_empty_fingerprint_never_verifies :
    (∀ (m : MimeMessage), encrypted_and_signed m "" = false) ∧
    (∀ (env : Env) (m : MimeMessage) (contact_id ccid : Nat) (b : Blocked)
        (step : String),
      DC_CONTACT_ID_LAST_SPECIAL < contact_id →
      m.get HeaderDef.SecureJoin = some step →
      env.createOrLookupChat contact_id = some (ccid, b) →
      env.selfFingerprint = none →
      (observe_securejoin_on_other_device env m contact_id).out =
          Outcome.ok HandshakeMessage.Ignore ∧
        (observe_securejoin_on_other_device env m contact_id).markCalls = []) := by
  have h1 : ∀ (m : MimeMessage), encrypted_and_signed m "" = false := by
    intro m
    simp [encrypted_and_signed, strIsEmpty]
  refine ⟨h1, ?_⟩
  intro env m contact_id ccid b step hcid hstep hchat hself
  have hlt : ¬ (contact_id ≤ DC_CONTACT_ID_LAST_SPECIAL) := Nat.not_le.mpr hcid
  have hes : encrypted_and_signed m (env.selfFingerprint.getD "") = false := by
    rw [hself]; exact h1 m
  unfold observe_securejoin_on_other_device
  rw [if_neg hlt, hstep, hchat]
  by_cases hfam : ((step == "vg-member-added" || step == "vc-contact-confirm" ||
      step == "vg-member-added-received" ||
      step == "vc-contact-confirm-received") = true)
  · simp only [hfam, if_true]
    simp [hes, HR.base]
  · simp only [Bool.not_eq_true] at hfam
    simp [hfam, HR.base]

/-- C10 witness: an observer without a loadable self key ignores a signed
confirm message and marks nothing. -/
theorem c10_witness :
    (observe_securejoin_on_other_device wEnvC10 wMsgC10 10).out =
        Outcome.ok HandshakeMessage.Ignore ∧
      (observe_securejoin_on_other_device wEnvC10 wMsgC10 10).markCalls = [] :=
  c10_empty_fingerprint_never_verifies.2 wEnvC10 wMsgC10 10 7 Blocked.Not
    "vc-contact-confirm" (by decide) rfl rfl rfl

end DeltaChat
